import Mathlib

/-!
Shallow embedding of `udsp/signal/builtin.py` (built-in signal generators)
over exact rationals, together with the container and lifecycle primitives
the generators call (`_mtx.vec_new`, `_mtx.mat_new`, per-sample composition,
the base-class `make()` pass, and the decoded media buffers), which are
outside the shown source and are modelled from the specification of this
layer. Python exceptions are modelled by an explicit error type and
`Except`; Python `round` is modelled exactly (round half to even).
-/

namespace UDSP

/-- The Python built-in `round` applied to an exact rational: round half to
even (banker rounding), as used by `MonoAudio` and `GrayImage`. -/
def pyround (q : ℚ) : ℤ :=
  let f : ℤ := ⌊q⌋
  let r : ℚ := q - f
  if r < 1/2 then f
  else if 1/2 < r then f + 1
  else if f % 2 = 0 then f else f + 1

/-- The generic Python exceptions that the code in `builtin.py` can raise:
`raise RuntimeError("Bug")` in the unreachable-state branches, a mapping
lookup failure (`KeyError`) from `self.dist[self.pdf]`, and whatever error a
called sampling primitive raises (modelled as `primError`). No named error
kind is defined anywhere in the source. -/
inductive PyError where
  | runtimeError (msg : String)
  | keyError (key : String)
  | primError (msg : String)
  deriving DecidableEq

/-- Modelled from the spec: the container-construction primitive
`buildSequence` (`_mtx.vec_new`), which builds a sequence by evaluating the
index function at every index `0..n-1`. -/
def vec_new (n : ℕ) (f : ℕ → ℚ) : List ℚ :=
  (List.range n).map f

/-- Modelled from the spec: the container-construction primitive
`buildGrid` (`_mtx.mat_new`), which builds an `n × m` grid by evaluating the
index function at every index pair. -/
def mat_new (n m : ℕ) (f : ℕ → ℕ → ℚ) : List (List ℚ) :=
  (List.range n).map (fun i => (List.range m).map (f i))

/-- `Pulse1D._generate`: `x1, x2 = xo - w/2, xo + w/2`; at each index `n` the
value is `a` if `x1 <= x[n] <= x2` else `0`. -/
def Pulse1D_generate (xo w a : ℚ) (x : List ℚ) : List ℚ :=
  let x1 := xo - w / 2
  let x2 := xo + w / 2
  vec_new x.length (fun n => if x1 ≤ x.getD n 0 ∧ x.getD n 0 ≤ x2 then a else 0)

/-- `Pulse2D._generate`: `x1, x2` are computed from `xo[0], w[0]` and
`y1, y2` from `xo[1], w[1]`; the cell `p = x[n][m]` is inside the box iff
`y1 <= p[0] <= y2 and x1 <= p[1] <= x2`. Tuples `(c0, c1)` are modelled as
pairs with `.1 = c0` and `.2 = c1`. -/
def Pulse2D_generate (xo w : ℚ × ℚ) (a : ℚ) (x : List (List (ℚ × ℚ))) :
    List (List ℚ) :=
  let x1 := xo.1 - w.1 / 2
  let x2 := xo.1 + w.1 / 2
  let y1 := xo.2 - w.2 / 2
  let y2 := xo.2 + w.2 / 2
  let inbox : ℚ × ℚ → Prop := fun p => (y1 ≤ p.1 ∧ p.1 ≤ y2) ∧ (x1 ≤ p.2 ∧ p.2 ≤ x2)
  mat_new x.length (x.getD 0 []).length
    (fun n m =>
      if inbox ((x.getD n []).getD m (0, 0)) then a else 0)

/-- The exponent of `Gaussian2D._generate` (the part of the 2-D Gaussian that
fixes how the `u`, `s` tuples pair with the grid coordinate components):
`-(x[n][m][0] - u[0])^2 / (2 s[0]^2) - (x[n][m][1] - u[1])^2 / (2 s[1]^2)`,
i.e. component 0 of `u`, `s` pairs with component 0 of the cell. -/
def Gaussian2D_exponent (u s : ℚ × ℚ) (p : ℚ × ℚ) : ℚ :=
  -(p.1 - u.1) ^ 2 / (2 * s.1 ^ 2) - (p.2 - u.2) ^ 2 / (2 * s.2 ^ 2)

/-- Modelled from the spec: per-sample composition of two sequences
(`_mtx.vec_compose` applied to a two-channel list), fusing sample `i` of each
input into sample `i` of the output. -/
def vec_compose2 (f : ℚ → ℚ → ℚ) (l r : List ℚ) : List ℚ :=
  List.zipWith f l r

/-- Modelled from the spec: per-element composition of three sequences, the
building block of `_mtx.mat_compose` applied to three planes. -/
def zip3 {α β γ δ : Type} (f : α → β → γ → δ) :
    List α → List β → List γ → List δ
  | a :: as, b :: bs, c :: cs => f a b c :: zip3 f as bs cs
  | _, _, _ => []

/-- Modelled from the spec: per-pixel composition of three grids
(`_mtx.mat_compose` applied to a three-plane list). -/
def mat_compose3 (f : ℚ → ℚ → ℚ → ℚ) (p q r : List (List ℚ)) :
    List (List ℚ) :=
  zip3 (fun pr qr rr => zip3 f pr qr rr) p q r

/-- `MonoAudio._generate`: one decoded channel is used as-is; two decoded
channels are fused per-sample as `round((l + r) / 2)`; any other channel
count raises `RuntimeError("Bug")`. -/
def monoAudio_generate (channels : List (List ℚ)) : Except PyError (List ℚ) :=
  if channels.length = 1 then
    .ok (channels.getD 0 [])
  else if channels.length = 2 then
    .ok (vec_compose2 (fun l r => (pyround ((l + r) / 2) : ℚ))
          (channels.getD 0 []) (channels.getD 1 []))
  else
    .error (.runtimeError "Bug")

/-- The BT.709 luma fusion used by `GrayImage._generate`:
`round(0.2126 * r + 0.7152 * g + 0.0722 * b)`. -/
def bt709 (r g b : ℚ) : ℚ :=
  (pyround (2126/10000 * r + 7152/10000 * g + 722/10000 * b) : ℚ)

/-- `GrayImage._generate`: 1 or 2 planes take plane 0 directly; 3 or 4 planes
fuse the first three planes per-pixel with the BT.709 weights; any other
plane count raises `RuntimeError("Bug")`. -/
def grayImage_generate (planes : List (List (List ℚ))) :
    Except PyError (List (List ℚ)) :=
  if planes.length = 1 ∨ planes.length = 2 then
    .ok (planes.getD 0 [])
  else if planes.length = 3 ∨ planes.length = 4 then
    .ok (mat_compose3 bt709 (planes.getD 0 []) (planes.getD 1 [])
          (planes.getD 2 []))
  else
    .error (.runtimeError "Bug")

/-- A distribution sampling primitive (`udsp.core.stat`, outside the shown
source): given a distribution name and the keyword parameters forwarded to
it, it returns a draw or raises. It is kept abstract; the generators only
select among the primitives and forward parameters. -/
def SamplingPrim : Type := String → List (String × ℚ) → Except PyError ℚ

/-- The `RNGMixin.dist` lookup combined with the parameter forwarding in
`Noise1D._generate` and `Noise2D._generate`: `self.dist[self.pdf]` raises a
`KeyError` when the key is not one of the four registered names
(`uniform`, `normal`, `lorentz`, `laplace`), and the selected primitive is
called with `**(self.pdf_params or {})` — the empty keyword mapping when
`pdf_params` is `None`. -/
def noise_draw (prim : SamplingPrim) (pdf : String)
    (pdf_params : Option (List (String × ℚ))) : Except PyError ℚ :=
  if pdf = "uniform" ∨ pdf = "normal" ∨ pdf = "lorentz" ∨ pdf = "laplace" then
    prim pdf (pdf_params.getD [])
  else
    .error (.keyError pdf)

/-- Modelled from the spec: `vec_new` threading the possible exception of the
per-index evaluation (in Python an exception raised by the index function
propagates out of the construction pass). -/
def vec_newE (n : ℕ) (f : ℕ → Except PyError ℚ) : Except PyError (List ℚ) :=
  (List.range n).mapM f

/-- Modelled from the spec: `mat_new` threading the possible exception of the
per-index-pair evaluation. -/
def mat_newE (n m : ℕ) (f : ℕ → ℕ → Except PyError ℚ) :
    Except PyError (List (List ℚ)) :=
  (List.range n).mapM (fun i => (List.range m).mapM (f i))

/-- A concrete sampling primitive used to instantiate witnesses: every call
succeeds and draws `0`. -/
def zeroPrim : SamplingPrim := fun _ _ => .ok 0

/-- `Noise1D._generate`: one independent draw per index of the domain axis. -/
def noise1D_generate (prim : SamplingPrim) (pdf : String)
    (pdf_params : Option (List (String × ℚ))) (x : List ℚ) :
    Except PyError (List ℚ) :=
  vec_newE x.length (fun _ => noise_draw prim pdf pdf_params)

/-- `Noise2D._generate`: one independent draw per index pair of the grid. -/
def noise2D_generate (prim : SamplingPrim) (pdf : String)
    (pdf_params : Option (List (String × ℚ))) (x : List (List (ℚ × ℚ))) :
    Except PyError (List (List ℚ)) :=
  mat_newE x.length (x.getD 0 []).length (fun _ _ => noise_draw prim pdf pdf_params)

/-- The caller-visible state of a fully constructed `MonoAudio` instance:
the stored signal and the `_audio` source reference (`None` after a
successful `_generate`, which executes `self._audio = None`). -/
structure MonoAudioInst where
  signal : List ℚ
  _audio : Option (List (List ℚ))
  _bps : ℤ
  deriving DecidableEq

/-- `MonoAudio.__init__`, modelled from the decoded channels (the media
decode itself is outside the shown source): it triggers the base-class
`make()` pass, which per the spec lifecycle contract invokes `_generate`
once; an exception propagates out of the constructor and no instance is
returned to the caller, otherwise the complete signal is stored and the
`_audio` reference is dropped. -/
def monoAudio_init (channels : List (List ℚ)) (bps : ℤ) :
    Except PyError MonoAudioInst :=
  match monoAudio_generate channels with
  | .ok s => .ok { signal := s, _audio := none, _bps := bps }
  | .error e => .error e

/-- The caller-visible state of a constructed `Noise1D` instance. -/
structure Noise1DInst where
  pdf : String
  pdf_params : Option (List (String × ℚ))
  signal : List ℚ

/-- `Noise1D.__init__`, modelled over the base-class domain axis `x`:
`make()` runs `_generate` over the whole axis; a raised exception propagates
out of the constructor and no instance is returned to the caller. -/
def noise1D_init (prim : SamplingPrim) (pdf : String)
    (pdf_params : Option (List (String × ℚ))) (x : List ℚ) :
    Except PyError Noise1DInst :=
  match noise1D_generate prim pdf pdf_params x with
  | .ok s => .ok { pdf := pdf, pdf_params := pdf_params, signal := s }
  | .error e => .error e

/-- One `AudioChannel` instance produced by `AudioChannel.from_file`: its
channel number `_id`, its sample resolution `_bps`, and the signal stored by
its `make()` pass (`_generate` returns `self._audio[self._id]`, read through
the class-level holder). -/
structure AudioChannelInst where
  _id : ℕ
  _bps : ℤ
  signal : List ℚ
  deriving DecidableEq

/-- `AudioChannel.from_file`, modelled from the decoded buffer `B`
(`audio.load()`): `cls._audio` is set to `B`, one instance per channel is
constructed and sampled while the holder is populated, then
`cls._audio = None` runs before the list is returned. The result is the list
of instances paired with the class-level holder as it stands when
`from_file` returns. -/
def audioChannel_from_file (B : List (List ℚ)) (bps : ℤ) :
    List AudioChannelInst × Option (List (List ℚ)) :=
  let clsAudio : Option (List (List ℚ)) := some B
  let channels := (List.range B.length).map (fun c =>
    { _id := c, _bps := bps,
      signal := (clsAudio.getD []).getD c [] : AudioChannelInst })
  (channels, none)

/-- One `ImageChannel` instance produced by `ImageChannel.from_file`. -/
structure ImageChannelInst where
  _id : ℕ
  signal : List (List ℚ)
  deriving DecidableEq

/-- The class-level attributes of `ImageChannel` after `from_file`: the
`_image` holder the instances read, and the `_audio` attribute that the
final line `cls._audio = None` of `ImageChannel.from_file` creates. -/
structure ImageChannelClassState where
  _image : Option (List (List (List ℚ)))
  _audio : Option (List (List (List ℚ)))
  deriving DecidableEq

/-- `ImageChannel.from_file`, modelled from the decoded planes `P`
(`image.load()`): `cls._image` is set to `P`, one instance per plane is
constructed and sampled while the holder is populated, and the method then
executes `cls._audio = None` — it never assigns `cls._image` — before
returning the list. The result is the list of instances paired with the
class-level state as it stands when `from_file` returns. -/
def imageChannel_from_file (P : List (List (List ℚ))) :
    List ImageChannelInst × ImageChannelClassState :=
  let clsImage : Option (List (List (List ℚ))) := some P
  let channels := (List.range P.length).map (fun c =>
    { _id := c, signal := (clsImage.getD []).getD c [] : ImageChannelInst })
  (channels, { _image := clsImage, _audio := none })

/-! Helper lemmas about the container primitives. -/

theorem vec_new_length (n : ℕ) (f : ℕ → ℚ) : (vec_new n f).length = n := by
  simp [vec_new]

theorem vec_new_getD (n : ℕ) (f : ℕ → ℚ) (i : ℕ) (h : i < n) (d : ℚ) :
    (vec_new n f).getD i d = f i := by
  simp [vec_new, List.getD_eq_getElem?_getD, List.getElem?_map,
    List.getElem?_range, h]

theorem mat_new_getD (n m : ℕ) (f : ℕ → ℕ → ℚ) (i j : ℕ)
    (hi : i < n) (hj : j < m) (d : ℚ) :
    ((mat_new n m f).getD i []).getD j d = f i j := by
  simp [mat_new, List.getD_eq_getElem?_getD, List.getElem?_map,
    List.getElem?_range, hi, hj]

theorem zipWith_getD (f : ℚ → ℚ → ℚ) (l r : List ℚ) (i : ℕ)
    (hl : i < l.length) (hr : i < r.length) (d : ℚ) :
    (List.zipWith f l r).getD i d = f (l.getD i 0) (r.getD i 0) := by
  simp [List.getD_eq_getElem?_getD, List.getElem?_zipWith,
    List.getElem?_eq_getElem, hl, hr]

theorem zip3_getD {α β γ δ : Type} (f : α → β → γ → δ)
    (as : List α) (bs : List β) (cs : List γ) (i : ℕ)
    (ha : i < as.length) (hb : i < bs.length) (hc : i < cs.length)
    (da : α) (db : β) (dc : γ) (dd : δ) :
    (zip3 f as bs cs).getD i dd =
      f (as.getD i da) (bs.getD i db) (cs.getD i dc) := by
  induction as generalizing bs cs i with
  | nil => simp at ha
  | cons a as ih =>
    cases bs with
    | nil => simp at hb
    | cons b bs =>
      cases cs with
      | nil => simp at hc
      | cons c cs =>
        cases i with
        | zero => simp [zip3]
        | succ i =>
          simp only [zip3, List.getD_cons_succ]
          exact ih bs cs i (by simpa using ha) (by simpa using hb)
            (by simpa using hc)

theorem mapM_range_const_error {α : Type} (n : ℕ) (e : PyError) (hn : 0 < n) :
    (List.range n).mapM (fun _ => (Except.error e : Except PyError α)) =
      Except.error e := by
  cases n with
  | zero => omega
  | succ k =>
    rw [List.range_succ_eq_map]
    simp [List.mapM_cons]
    rfl

/-- Python `round` on an exact half: `round(k + 1/2)` is the even neighbour
(round half to even), pinning down the tie-break rule of the downmix and the
luma conversion. -/
theorem pyround_half (k : ℤ) :
    pyround ((k : ℚ) + 1 / 2) = if k % 2 = 0 then k else k + 1 := by
  have hf : ⌊(k : ℚ) + 1 / 2⌋ = k := by
    rw [add_comm, Int.floor_add_int]
    norm_num
  simp only [pyround, hf]
  have hr : ((k : ℚ) + 1 / 2) - (k : ℤ) = 1 / 2 := by ring
  rw [hr]
  norm_num

/-! Claim theorems. -/

/-- C1 (counterexample): the claim predicts that `Pulse2D` with `xo = (5, 0)`,
`w = (1, 1)`, `a = 1` evaluates to `0` at a cell whose coordinate pair is
`(0, 5)` (vertical coordinate `0` does not lie in
`[xo_y - w_y/2, xo_y + w_y/2] = [4.5, 5.5]` under the vertical-first reading
`xo_y = xo[0] = 5`), but the code evaluates it to `a = 1`. -/
theorem pulse2D_axis_order_cex :
    Pulse2D_generate (5, 0) (1, 1) 1 [[(0, 5)]] = [[1]] ∧
    ¬ (((5 : ℚ) - 1 / 2 ≤ 0 ∧ (0 : ℚ) ≤ 5 + 1 / 2) ∧
       ((0 : ℚ) - 1 / 2 ≤ 5 ∧ (5 : ℚ) ≤ 0 + 1 / 2)) ∧
    (1 : ℚ) ≠ 0 := by
  refine ⟨?_, by norm_num, by norm_num⟩
  norm_num [Pulse2D_generate, mat_new, List.range_succ]

/-- C1 (amended): `Pulse2D` evaluates to `a` at exactly those cells whose
vertical coordinate (component 0 of the cell) lies in
`[xo[1] - w[1]/2, xo[1] + w[1]/2]` and whose horizontal coordinate
(component 1) lies in `[xo[0] - w[0]/2, xo[0] + w[0]/2]`, and to `0`
elsewhere: the `xo` and `w` tuples are interpreted horizontal-first,
opposite to the vertical-first ordering of the grid cells and of the `u`,
`s` tuples of `Gaussian2D`. -/
theorem pulse2D_box (xo w : ℚ × ℚ) (a : ℚ) (x : List (List (ℚ × ℚ)))
    (n m : ℕ) (hn : n < x.length) (hm : m < (x.getD 0 []).length) :
    ((Pulse2D_generate xo w a x).getD n []).getD m 0 =
      if (xo.2 - w.2 / 2 ≤ ((x.getD n []).getD m (0, 0)).1 ∧
          ((x.getD n []).getD m (0, 0)).1 ≤ xo.2 + w.2 / 2) ∧
         (xo.1 - w.1 / 2 ≤ ((x.getD n []).getD m (0, 0)).2 ∧
          ((x.getD n []).getD m (0, 0)).2 ≤ xo.1 + w.1 / 2)
      then a else 0 := by
  simp only [Pulse2D_generate]
  rw [mat_new_getD _ _ _ _ _ hn hm]

/-- C1 (witness): the amended characterization evaluated at `xo = (5, 0)`,
`w = (1, 1)`, `a = 1` on the one-cell grid `[[(0, 5)]]`. -/
theorem pulse2D_box_witness :
    ((Pulse2D_generate (5, 0) (1, 1) 1 [[(0, 5)]]).getD 0 []).getD 0 0 =
      if ((0 : ℚ) - 1 / 2 ≤ 0 ∧ (0 : ℚ) ≤ 0 + 1 / 2) ∧
         ((5 : ℚ) - 1 / 2 ≤ 5 ∧ (5 : ℚ) ≤ 5 + 1 / 2)
      then 1 else 0 := by
  exact pulse2D_box (5, 0) (1, 1) 1 [[(0, 5)]] 0 0 (by decide) (by decide)

/-- C2 (counterexample): decoding audio with 3 channels and an image with 5
planes does not surface a distinct named `UnsupportedChannelLayout` error
kind; both branches raise the generic unreachable-state failure
`RuntimeError("Bug")`. -/
theorem unsupported_layout_cex :
    monoAudio_generate [[0], [0], [0]] = .error (.runtimeError "Bug") ∧
    grayImage_generate [[[0]], [[0]], [[0]], [[0]], [[0]]] =
      .error (.runtimeError "Bug") := by
  constructor <;> norm_num [monoAudio_generate, grayImage_generate]

/-- C2 (amended): for every decoded source whose channel count is not 1 or 2
(audio) or whose plane count is not in {1, 2, 3, 4} (image), generation
fails with the generic `RuntimeError("Bug")` raised by the fallback branch,
not with a distinct named error kind. -/
theorem unsupported_layout_generic (channels : List (List ℚ))
    (planes : List (List (List ℚ)))
    (hc : channels.length ≠ 1 ∧ channels.length ≠ 2)
    (hp : planes.length ≠ 1 ∧ planes.length ≠ 2 ∧ planes.length ≠ 3 ∧
          planes.length ≠ 4) :
    monoAudio_generate channels = .error (.runtimeError "Bug") ∧
    grayImage_generate planes = .error (.runtimeError "Bug") := by
  constructor
  · simp [monoAudio_generate, hc.1, hc.2]
  · simp [grayImage_generate, hp.1, hp.2.1, hp.2.2.1, hp.2.2.2]

/-- C2 (witness): the amended statement at a zero-channel audio source and a
zero-plane image source. -/
theorem unsupported_layout_generic_witness :
    monoAudio_generate [] = .error (.runtimeError "Bug") ∧
    grayImage_generate [] = .error (.runtimeError "Bug") := by
  exact unsupported_layout_generic [] [] (by decide) (by decide)

/-- C3 (counterexample): on a single RGB pixel with `R = 10`, `G = 20`,
`B = 30`, `GrayImage` yields `round(0.2126*10 + 0.7152*20 + 0.0722*30) =
round(18.596) = 19`, not `18` as the claim states. -/
theorem grayImage_rgb_pixel_cex :
    grayImage_generate [[[10]], [[20]], [[30]]] = .ok [[19]] ∧
    (19 : ℚ) ≠ 18 := by
  constructor
  · norm_num [grayImage_generate, mat_compose3, zip3, bt709, pyround]
  · norm_num

/-- C3 (amended): `GrayImage` fuses the first three planes of an RGB or RGBA
image per-pixel as `round(0.2126*R + 0.7152*G + 0.0722*B)`; in particular,
on a single RGB pixel with `R = 10`, `G = 20`, `B = 30` the resulting
grayscale value equals 19. -/
theorem grayImage_luma (planes : List (List (List ℚ))) (n m : ℕ)
    (h34 : planes.length = 3 ∨ planes.length = 4)
    (h0 : n < (planes.getD 0 []).length ∧
          m < ((planes.getD 0 []).getD n []).length)
    (h1 : n < (planes.getD 1 []).length ∧
          m < ((planes.getD 1 []).getD n []).length)
    (h2 : n < (planes.getD 2 []).length ∧
          m < ((planes.getD 2 []).getD n []).length) :
    ∃ Y, grayImage_generate planes = .ok Y ∧
      (Y.getD n []).getD m 0 =
        bt709 (((planes.getD 0 []).getD n []).getD m 0)
              (((planes.getD 1 []).getD n []).getD m 0)
              (((planes.getD 2 []).getD n []).getD m 0) ∧
      bt709 10 20 30 = 19 := by
  have hne : ¬(planes.length = 1 ∨ planes.length = 2) := by omega
  refine ⟨mat_compose3 bt709 (planes.getD 0 []) (planes.getD 1 [])
    (planes.getD 2 []), ?_, ?_, ?_⟩
  · simp only [grayImage_generate]
    rw [if_neg hne, if_pos h34]
  · simp only [mat_compose3]
    rw [zip3_getD _ _ _ _ _ h0.1 h1.1 h2.1 [] [] []]
    rw [zip3_getD _ _ _ _ _ h0.2 h1.2 h2.2 0 0 0]
  · norm_num [bt709, pyround]

/-- C3 (witness): the amended statement at the three-plane one-pixel image
with `R = 10`, `G = 20`, `B = 30`. -/
theorem grayImage_luma_witness :
    ∃ Y, grayImage_generate [[[10]], [[20]], [[30]]] = .ok Y ∧
      (Y.getD 0 []).getD 0 0 = bt709 10 20 30 ∧
      bt709 10 20 30 = 19 := by
  exact grayImage_luma [[[10]], [[20]], [[30]]] 0 0 (by decide) (by decide)
    (by decide) (by decide)

/-- C4 (counterexample): a noise generator configured with the unknown
distribution key `"poisson"` fails with the generic mapping-lookup failure
`KeyError("poisson")` raised by `self.dist[self.pdf]`, not with a distinct
named `UnknownDistribution` error kind. -/
theorem noise_unknown_dist_cex :
    noise1D_generate zeroPrim "poisson" none [0] =
      .error (.keyError "poisson") := by
  have h : noise_draw zeroPrim "poisson" none =
      .error (.keyError "poisson") := by
    simp [noise_draw]
  simp only [noise1D_generate, vec_newE, h, List.length_cons, List.length_nil]
  exact mapM_range_const_error 1 _ (by omega)

/-- C4 (amended): for every noise generator over a nonempty domain, a
distribution key outside `{uniform, normal, lorentz, laplace}` makes
generation fail with the generic `KeyError` naming the key (the registry
lookup failure), and an error raised by the selected sampling primitive —
e.g. on missing or malformed parameters — propagates out of generation
unchanged; no named `UnknownDistribution` or `InvalidDistributionParameters`
kinds exist. -/
theorem noise_error_propagation (prim : SamplingPrim) (pdf : String)
    (params : Option (List (String × ℚ))) (x : List ℚ)
    (x2 : List (List (ℚ × ℚ)))
    (hpdf : ¬(pdf = "uniform" ∨ pdf = "normal" ∨ pdf = "lorentz" ∨
              pdf = "laplace"))
    (hx : 0 < x.length) (hx2 : 0 < x2.length ∧ 0 < (x2.getD 0 []).length) :
    noise1D_generate prim pdf params x = .error (.keyError pdf) ∧
    noise2D_generate prim pdf params x2 = .error (.keyError pdf) ∧
    (∀ pdf2 e,
      (pdf2 = "uniform" ∨ pdf2 = "normal" ∨ pdf2 = "lorentz" ∨
        pdf2 = "laplace") →
      prim pdf2 (params.getD []) = .error e →
      0 < x.length →
      noise1D_generate prim pdf2 params x = .error e) := by
  have hd : noise_draw prim pdf params = .error (.keyError pdf) := by
    simp only [noise_draw, if_neg hpdf]
  refine ⟨?_, ?_, ?_⟩
  · simp only [noise1D_generate, vec_newE, hd]
    exact mapM_range_const_error _ _ hx
  · simp only [noise2D_generate, mat_newE, hd]
    have hin : (fun _ : ℕ => (List.range (x2.getD 0 []).length).mapM
        (fun _ => (Except.error (PyError.keyError pdf) : Except PyError ℚ))) =
        fun _ : ℕ => (Except.error (PyError.keyError pdf) :
          Except PyError (List ℚ)) := by
      funext i
      exact mapM_range_const_error _ _ hx2.2
    rw [hin]
    exact mapM_range_const_error _ _ hx2.1
  · intro pdf2 e hp2 hpe hx0
    have hd2 : noise_draw prim pdf2 params = .error e := by
      simp only [noise_draw, if_pos hp2]
      exact hpe
    simp only [noise1D_generate, vec_newE, hd2]
    exact mapM_range_const_error _ _ hx0

/-- C4 (witness): the amended statement for the unknown key `"poisson"` on a
one-point axis and a one-cell grid, with a primitive that always succeeds. -/
theorem noise_error_propagation_witness :
    noise1D_generate zeroPrim "poisson" none [1] =
      .error (.keyError "poisson") ∧
    noise2D_generate zeroPrim "poisson" none [[(0, 0)]] =
      .error (.keyError "poisson") ∧
    (∀ pdf2 e,
      (pdf2 = "uniform" ∨ pdf2 = "normal" ∨ pdf2 = "lorentz" ∨
        pdf2 = "laplace") →
      zeroPrim pdf2
        ((none : Option (List (String × ℚ))).getD []) = .error e →
      0 < ([1] : List ℚ).length →
      noise1D_generate zeroPrim pdf2 none [1] = .error e) := by
  exact noise_error_propagation zeroPrim "poisson" none [1]
    [[(0, 0)]] (by decide) (by decide) (by decide)

/-- C5 (code bug): after `ImageChannel.from_file` returns, the class-level
`_image` holder still references the decoded buffer — the final line of the
method assigns `cls._audio = None` instead of `cls._image = None` — whereas
the matching `AudioChannel.from_file` does drop its holder. Evaluated here
at a one-plane image and a one-channel audio source. -/
theorem imageChannel_buffer_retained :
    (imageChannel_from_file [[[1]]]).2._image = some [[[1]]] ∧
    (imageChannel_from_file [[[1]]]).2._image ≠ none ∧
    (audioChannel_from_file [[1]] 16).2 = none := by
  refine ⟨rfl, by simp [imageChannel_from_file], rfl⟩

/-- C6: `AudioChannel.from_file` over a decoded `K`-channel buffer returns
exactly `K` instances; the `c`-th instance has channel index `c` and its
signal is element-for-element identical to the `c`-th decoded channel. -/
theorem audioChannel_split_roundtrip (B : List (List ℚ)) (bps : ℤ) (c : ℕ)
    (hc : c < B.length) :
    (audioChannel_from_file B bps).1.length = B.length ∧
    ((audioChannel_from_file B bps).1.getD c ⟨0, 0, []⟩)._id = c ∧
    ((audioChannel_from_file B bps).1.getD c ⟨0, 0, []⟩).signal =
      B.getD c [] := by
  refine ⟨by simp [audioChannel_from_file], ?_, ?_⟩ <;>
    simp [audioChannel_from_file, List.getD_eq_getElem?_getD,
      List.getElem?_map, List.getElem?_range, hc]

/-- C6 (witness): the split round-trip on the three-channel buffer
`[[1], [2], [3]]` at channel 1. -/
theorem audioChannel_split_roundtrip_witness :
    (audioChannel_from_file [[1], [2], [3]] 16).1.length =
      ([[1], [2], [3]] : List (List ℚ)).length ∧
    ((audioChannel_from_file [[1], [2], [3]] 16).1.getD 1 ⟨0, 0, []⟩)._id = 1 ∧
    ((audioChannel_from_file [[1], [2], [3]] 16).1.getD 1 ⟨0, 0, []⟩).signal =
      ([[1], [2], [3]] : List (List ℚ)).getD 1 [] := by
  exact audioChannel_split_roundtrip [[1], [2], [3]] 16 1 (by decide)

/-- C7: `MonoAudio` uses a single decoded channel as-is; on two channels each
output sample is `round((l + r)/2)` of the corresponding input samples under
the fixed round-half-to-even tie-break of Python `round`; in particular the
stereo pair `(4, 5)` gives `round(4.5) = 4`. -/
theorem monoAudio_downmix (C L R : List ℚ) (i : ℕ)
    (hl : i < L.length) (hr : i < R.length) (k : ℤ) :
    monoAudio_generate [C] = .ok C ∧
    (∃ S, monoAudio_generate [L, R] = .ok S ∧
      S.getD i 0 = (pyround ((L.getD i 0 + R.getD i 0) / 2) : ℚ)) ∧
    pyround ((k : ℚ) + 1 / 2) = (if k % 2 = 0 then k else k + 1) ∧
    pyround ((4 + 5 : ℚ) / 2) = 4 := by
  refine ⟨by simp [monoAudio_generate], ?_, pyround_half k,
    by norm_num [pyround]⟩
  refine ⟨vec_compose2 (fun l r => (pyround ((l + r) / 2) : ℚ)) L R, ?_, ?_⟩
  · simp [monoAudio_generate]
  · simp only [vec_compose2]
    rw [zipWith_getD _ _ _ _ hl hr]

/-- C7 (witness): the downmix on the stereo pair `(4, 5)` (and the mono
channel `[1]` as-is), with the tie-break rule instantiated at `k = 3`. -/
theorem monoAudio_downmix_witness :
    monoAudio_generate [[1]] = .ok [1] ∧
    (∃ S, monoAudio_generate [[4], [5]] = .ok S ∧
      S.getD 0 0 = (pyround ((([4] : List ℚ).getD 0 0 +
        ([5] : List ℚ).getD 0 0) / 2) : ℚ)) ∧
    pyround (((3 : ℤ) : ℚ) + 1 / 2) =
      (if (3 : ℤ) % 2 = 0 then (3 : ℤ) else 3 + 1) ∧
    pyround ((4 + 5 : ℚ) / 2) = 4 := by
  exact monoAudio_downmix [1] [4] [5] 0 (by decide) (by decide) 3

/-- C8: for all parameters `xo`, `w`, `a` and every 1-D domain, `Pulse1D`
evaluates to `a` at every domain point inside the closed interval
`[xo - w/2, xo + w/2]` and to `0` at every domain point strictly outside it;
for a nonnegative width the centre `xo` and both closed boundary points
`xo - w/2` and `xo + w/2` lie inside that interval. -/
theorem pulse1D_closed_interval (xo w a : ℚ) (x : List ℚ) (i : ℕ)
    (hi : i < x.length) :
    (Pulse1D_generate xo w a x).length = x.length ∧
    ((Pulse1D_generate xo w a x).getD i 0 =
      if xo - w / 2 ≤ x.getD i 0 ∧ x.getD i 0 ≤ xo + w / 2 then a else 0) ∧
    (0 ≤ w →
      (xo - w / 2 ≤ xo ∧ xo ≤ xo + w / 2) ∧
      (xo - w / 2 ≤ xo - w / 2 ∧ xo - w / 2 ≤ xo + w / 2) ∧
      (xo - w / 2 ≤ xo + w / 2 ∧ xo + w / 2 ≤ xo + w / 2)) := by
  refine ⟨vec_new_length _ _, ?_, ?_⟩
  · simp only [Pulse1D_generate]
    rw [vec_new_getD _ _ _ hi]
  · intro hw
    refine ⟨⟨by linarith, by linarith⟩, ⟨by linarith, by linarith⟩,
      ⟨by linarith, by linarith⟩⟩

/-- C8 (witness): the pulse with `xo = 0`, `w = 2`, `a = 5` on the domain
`[-2, -1, 0, 1, 2]`, evaluated at index 2 (the centre point `x = 0`). -/
theorem pulse1D_closed_interval_witness :
    (Pulse1D_generate 0 2 5 [-2, -1, 0, 1, 2]).length =
      ([-2, -1, 0, 1, 2] : List ℚ).length ∧
    ((Pulse1D_generate 0 2 5 [-2, -1, 0, 1, 2]).getD 2 0 =
      if (0 : ℚ) - 2 / 2 ≤ ([-2, -1, 0, 1, 2] : List ℚ).getD 2 0 ∧
         ([-2, -1, 0, 1, 2] : List ℚ).getD 2 0 ≤ 0 + 2 / 2
      then 5 else 0) ∧
    ((0 : ℚ) ≤ 2 →
      ((0 : ℚ) - 2 / 2 ≤ 0 ∧ (0 : ℚ) ≤ 0 + 2 / 2) ∧
      ((0 : ℚ) - 2 / 2 ≤ 0 - 2 / 2 ∧ (0 : ℚ) - 2 / 2 ≤ 0 + 2 / 2) ∧
      ((0 : ℚ) - 2 / 2 ≤ 0 + 2 / 2 ∧ (0 : ℚ) + 2 / 2 ≤ 0 + 2 / 2)) := by
  exact pulse1D_closed_interval 0 2 5 [-2, -1, 0, 1, 2] 2 (by decide)

/-- C9: a failing construction surfaces its error synchronously as the result
of the constructing call and returns no instance at all — no partial signal
and no retained decoded buffer — while a successful `MonoAudio` construction
stores the complete generated signal and has dropped its `_audio` source
reference. -/
theorem construction_atomic (channels : List (List ℚ)) (bps : ℤ)
    (prim : SamplingPrim) (pdf : String)
    (params : Option (List (String × ℚ))) (x : List ℚ)
    (hc : channels.length ≠ 1 ∧ channels.length ≠ 2)
    (hpdf : ¬(pdf = "uniform" ∨ pdf = "normal" ∨ pdf = "lorentz" ∨
              pdf = "laplace"))
    (hx : 0 < x.length) :
    monoAudio_init channels bps = .error (.runtimeError "Bug") ∧
    (∀ inst, monoAudio_init channels bps ≠ .ok inst) ∧
    noise1D_init prim pdf params x = .error (.keyError pdf) ∧
    (∀ inst, noise1D_init prim pdf params x ≠ .ok inst) ∧
    (∀ chans inst, monoAudio_init chans bps = .ok inst →
      inst._audio = none ∧ monoAudio_generate chans = .ok inst.signal) := by
  have hg : monoAudio_generate channels = .error (.runtimeError "Bug") := by
    simp [monoAudio_generate, hc.1, hc.2]
  have hn : noise1D_generate prim pdf params x = .error (.keyError pdf) := by
    have hd : noise_draw prim pdf params = .error (.keyError pdf) := by
      simp only [noise_draw, if_neg hpdf]
    simp only [noise1D_generate, vec_newE, hd]
    exact mapM_range_const_error _ _ hx
  refine ⟨?_, ?_, ?_, ?_, ?_⟩
  · simp [monoAudio_init, hg]
  · intro inst
    simp [monoAudio_init, hg]
  · simp [noise1D_init, hn]
  · intro inst
    simp [noise1D_init, hn]
  · intro chans inst hok
    simp only [monoAudio_init] at hok
    cases hgen : monoAudio_generate chans with
    | ok s =>
      rw [hgen] at hok
      cases hok
      exact ⟨rfl, rfl⟩
    | error e =>
      rw [hgen] at hok
      cases hok

/-- C9 (witness): atomic failure for a zero-channel audio source and for a
noise generator with the unknown key `"poisson"` over the axis `[2]`. -/
theorem construction_atomic_witness :
    monoAudio_init [] 16 = .error (.runtimeError "Bug") ∧
    (∀ inst, monoAudio_init [] 16 ≠ .ok inst) ∧
    noise1D_init zeroPrim "poisson" none [2] =
      .error (.keyError "poisson") ∧
    (∀ inst, noise1D_init zeroPrim "poisson" none [2] ≠
      .ok inst) ∧
    (∀ chans inst, monoAudio_init chans 16 = .ok inst →
      inst._audio = none ∧ monoAudio_generate chans = .ok inst.signal) := by
  exact construction_atomic [] 16 zeroPrim "poisson" none [2]
    (by decide) (by decide) (by decide)

/-- C10: a noise generator constructed with `pdf_params = None` invokes the
selected sampling primitive with the empty keyword mapping — the primitive
defaults apply — for every per-index draw of the 1-D and 2-D generation
passes, and direct success of the parameterless primitive call makes the
draw succeed instead of failing on a missing parameter mapping. -/
theorem noise_default_params (prim : SamplingPrim) (pdf : String)
    (x : List ℚ) (x2 : List (List (ℚ × ℚ)))
    (hpdf : pdf = "uniform" ∨ pdf = "normal" ∨ pdf = "lorentz" ∨
            pdf = "laplace") :
    noise_draw prim pdf none = prim pdf [] ∧
    noise1D_generate prim pdf none x =
      vec_newE x.length (fun _ => prim pdf []) ∧
    noise2D_generate prim pdf none x2 =
      mat_newE x2.length (x2.getD 0 []).length (fun _ _ => prim pdf []) ∧
    (∀ v, prim pdf [] = .ok v → noise_draw prim pdf none = .ok v) := by
  have hd : noise_draw prim pdf none = prim pdf [] := by
    simp only [noise_draw, if_pos hpdf, Option.getD_none]
  exact ⟨hd, by simp only [noise1D_generate, hd],
    by simp only [noise2D_generate, hd],
    fun v hv => by rw [hd, hv]⟩

/-- C10 (witness): the default-parameter behaviour for `pdf = "normal"` with
a primitive that draws `0`, on the axis `[0]` and the grid `[[(0, 0)]]`. -/
theorem noise_default_params_witness :
    noise_draw zeroPrim "normal" none =
      zeroPrim "normal" [] ∧
    noise1D_generate zeroPrim "normal" none [0] =
      vec_newE ([0] : List ℚ).length
        (fun _ => zeroPrim "normal" []) ∧
    noise2D_generate zeroPrim "normal" none [[(0, 0)]] =
      mat_newE ([[(0, 0)]] : List (List (ℚ × ℚ))).length
        (([[(0, 0)]] : List (List (ℚ × ℚ))).getD 0 []).length
        (fun _ _ => zeroPrim "normal" []) ∧
    (∀ v, zeroPrim "normal" [] = .ok v →
      noise_draw zeroPrim "normal" none = .ok v) := by
  exact noise_default_params zeroPrim "normal" [0] [[(0, 0)]]
    (by decide)

end UDSP
